import Mathlib

/-!
Shallow embedding of `src/app.py` (geo buffer/intersect service).

The shapely/pyproj geometry engine is opaque third-party code; we model it as
a record of operations `Engine G` over an abstract geometry type `G`.
Fallible engine calls return `Except String` (the error value models a raised
`GEOSException` / engine exception carrying its message) or `Option` where the
Python code catches a generic `Exception`.  The Python functions of `app.py`
are translated one-for-one below: `_to_2d`, `_fix_valid`, `_safe_union`,
`union_from_fc`, `pick_pair`, `process_one`, `buffer_intersect_batch`.
Raw (unparsed GeoJSON) geometries are opaque tokens, modelled as `Nat`.
-/

namespace App

/-- A raw, unparsed GeoJSON geometry value (opaque token). -/
abbrev RawGeom : Type := Nat

/-- A GeoJSON FeatureCollection: the only part the code reads is the
`features` list, each feature contributing its raw `geometry`. -/
structure FC where
  features : List RawGeom
deriving DecidableEq, Repr

/-- The geometry engine (shapely + pyproj), abstracted: each field models one
operation the Python code calls on geometries.  `Except String` models an
operation that can raise a geometry-engine exception (`GEOSException` for the
union operations); `Option` models one whose failures the code catches as a
generic `Exception`. -/
structure Engine (G : Type) where
  /-- `GeometryCollection()` — the empty geometry constructed by the code. -/
  emptyGC : G
  /-- `g.is_empty` -/
  is_empty : G → Bool
  /-- `g.is_valid` -/
  is_valid : G → Bool
  /-- `g.has_z` -/
  has_z : G → Bool
  /-- `_to_2d(g)`: `transform(lambda x, y, z=None: (x, y), g)`, with its
  internal `try/except` returning `g` on failure — hence total. -/
  to_2d : G → G
  /-- whether `make_valid` imported successfully (`make_valid is not None`). -/
  make_valid_avail : Bool
  /-- `make_valid(g)`; `none` models a raised exception (caught by caller). -/
  make_valid : G → Option G
  /-- `g.buffer(0)`; `none` models a raised exception (caught by caller). -/
  buffer0 : G → Option G
  /-- `shape(f["geometry"])`; `none` models any exception (malformed feature,
  missing key), caught by the caller. -/
  shape : RawGeom → Option G
  /-- `u.union(g)`; `.error` models a raised `GEOSException`. -/
  union : G → G → Except String G
  /-- `unary_union(geoms)`; `.error` models a raised `GEOSException`. -/
  unary_union : List G → Except String G
  /-- `transform(to_m, g)` — reproject to planar meters; may raise. -/
  to_m : G → Except String G
  /-- `transform(to_geo, g)` — reproject back to geographic; may raise. -/
  to_geo : G → Except String G
  /-- `g.buffer(d)` with a metric distance; may raise. -/
  buffer : G → Int → Except String G
  /-- `a.intersection(b)`; may raise. -/
  intersection : G → G → Except String G
  /-- `getattr(inter, "geoms", [inter])` — the constituent single parts. -/
  geoms : G → List G
  /-- `g.area` of a planar geometry (total). -/
  area : G → ℚ

variable {G : Type}

/-- `_fix_valid(g)` from `app.py`: drop Z if present, then `make_valid` if
available (exceptions swallowed), then `buffer(0)` if still invalid
(exceptions swallowed); return `None` (`none`) if still invalid. -/
def fix_valid (E : Engine G) (g : G) : Option G :=
  let g1 := if E.has_z g then E.to_2d g else g
  let g2 := if E.make_valid_avail then (E.make_valid g1).getD g1 else g1
  let g3 := if E.is_valid g2 then g2 else (E.buffer0 g2).getD g2
  if E.is_valid g3 then some g3 else none

/-- The loop of `_safe_union`: fold the remaining geometries pairwise into the
accumulator `u`; on a `GEOSException` re-clean the offender once and retry;
on a second failure (or failed re-clean) skip it. -/
def safe_union_go (E : Engine G) (u : G) : List G → G
  | [] => u
  | g :: gs =>
    match E.union u g with
    | .ok u2 => safe_union_go E u2 gs
    | .error _ =>
      match fix_valid E g with
      | none => safe_union_go E u gs
      | some g2 =>
        match E.union u g2 with
        | .ok u2 => safe_union_go E u2 gs
        | .error _ => safe_union_go E u gs

/-- `_safe_union(geoms)` from `app.py`: empty list gives
`GeometryCollection()`; otherwise fold left-to-right from the first element. -/
def safe_union (E : Engine G) : List G → G
  | [] => E.emptyGC
  | g :: gs => safe_union_go E g gs

/-- The `cleaned` list built by `union_from_fc`: parse each feature's
geometry (parse failures skipped), repair it (`fix_valid`), keep it only if
repair succeeded and it is non-empty.  (`if g and not g.is_empty`). -/
def cleaned_of (E : Engine G) (fc : Option FC) : List G :=
  ((fc.getD ⟨[]⟩).features).filterMap fun f =>
    match E.shape f with
    | none => none
    | some g =>
      match fix_valid E g with
      | none => none
      | some g2 => if !E.is_empty g2 then some g2 else none

/-- `union_from_fc(fc)` from `app.py`: dissolve a FeatureCollection into one
geometry.  `none` input models `fc` being `None` (`(fc or {})`).  Zero
surviving geometries give `GeometryCollection()`; otherwise try the bulk
`unary_union` and on a `GEOSException` fall back to `_safe_union`.  Total:
never propagates a geometry-engine exception. -/
def union_from_fc (E : Engine G) (fc : Option FC) : G :=
  let cleaned := cleaned_of E fc
  match cleaned with
  | [] => E.emptyGC
  | _ =>
    match E.unary_union cleaned with
    | .ok u => u
    | .error _ => safe_union E cleaned

/-! ### Pair Resolver (`pick_pair`) -/

/-- The dictionary stored under an explicit `"coop"` / `"protected"` key:
`{name, geojson}` with both entries possibly absent or null. -/
structure SlotObj where
  name : Option String
  geojson : Option FC
deriving DecidableEq, Repr

/-- An input record (`j : Dict[str, Any]`).  `coopKey = none` models the key
`"coop"` being absent; `coopKey = some none` models `j["coop"] = None`
(handled by `(j["coop"] or {})`); likewise for `protKey`.  The numbered
fields model `j.get("kind_1")` etc.: `none` for an absent or null key. -/
structure Item where
  coopKey : Option (Option SlotObj) := none
  protKey : Option (Option SlotObj) := none
  kind_1 : Option String := none
  name_1 : Option String := none
  geojson_1 : Option FC := none
  kind_2 : Option String := none
  name_2 : Option String := none
  geojson_2 : Option FC := none
deriving DecidableEq, Repr

/-- Python `s.lower()`, as character-wise case mapping (the kind labels the
code compares are ASCII). -/
def pyLower (s : String) : String := ⟨s.data.map Char.toLower⟩

/-- Python `s.startswith(p)`: `p` is a prefix of `s`. -/
def pyStartsWith (s p : String) : Bool := p.data.isPrefixOf s.data

/-- Python truthiness of an optional string: `None` and `""` are falsy. -/
def pyTruthyStr : Option String → Bool
  | none => false
  | some s => !s.data.isEmpty

/-- `(kind or "").lower().startswith("coop")`. -/
def kindIsCoop (k : Option String) : Bool :=
  pyStartsWith (pyLower (k.getD "")) "coop"

/-- `pick_pair(j)` from `app.py`: returns
`(coop_name, coop_geojson, prot_name, prot_geojson)`.  Explicit shape when
both `"coop"` and `"protected"` keys are present; otherwise the numbered
shape: positional default when neither `kind` is truthy, else slot 1 is the
source iff its kind starts (case-insensitively) with `"coop"`. -/
def pick_pair (j : Item) :
    Option String × Option FC × Option String × Option FC :=
  if j.coopKey.isSome && j.protKey.isSome then
    let c := (j.coopKey.getD none).getD ⟨none, none⟩
    let p := (j.protKey.getD none).getD ⟨none, none⟩
    (c.name, c.geojson, p.name, p.geojson)
  else
    if !pyTruthyStr j.kind_1 && !pyTruthyStr j.kind_2 then
      (j.name_1, j.geojson_1, j.name_2, j.geojson_2)
    else
      if kindIsCoop j.kind_1 then
        (j.name_1, j.geojson_1, j.name_2, j.geojson_2)
      else
        (j.name_2, j.geojson_2, j.name_1, j.geojson_1)

/-! ### Buffer-Intersect Engine (`process_one`) -/

/-- Python's `round` to an integer: round half to even (banker's rounding). -/
def pyRound (q : ℚ) : ℤ :=
  if q - ⌊q⌋ < 1/2 then ⌊q⌋
  else if 1/2 < q - ⌊q⌋ then ⌊q⌋ + 1
  else if 2 ∣ ⌊q⌋ then ⌊q⌋ else ⌊q⌋ + 1

/-- Python's `round(x, 6)`. -/
def pyRound6 (q : ℚ) : ℚ :=
  (pyRound (q * 1000000) : ℚ) / 1000000

/-- `(s or default)` for an optional string (`None`/`""` falsy). -/
def pyStrOr (o : Option String) (d : String) : String :=
  match o with
  | none => d
  | some s => if s.data.isEmpty then d else s

/-- The scan of Python `s.replace(old, new)` for a non-empty `old`, over the
character list of `s`: at each position, if `old` matches there, emit `new`
and skip past the match, else copy one character — leftmost, non-overlapping,
every occurrence.  The first argument is fuel, one unit per emitted position;
`fuel = s.length` always suffices since every step consumes at least one
character. -/
def pyReplaceAux (pat rep : List Char) : ℕ → List Char → List Char
  | 0, s => s
  | _ + 1, [] => []
  | fuel + 1, c :: cs =>
    if !pat.isEmpty && pat.isPrefixOf (c :: cs) then
      rep ++ pyReplaceAux pat rep fuel ((c :: cs).drop pat.length)
    else
      c :: pyReplaceAux pat rep fuel cs

/-- Python `s.replace(old, new)` for a non-empty `old` (the code only ever
replaces `".geojson"`). -/
def pyReplace (s pat rep : String) : String :=
  ⟨pyReplaceAux pat.data rep.data s.data.length s.data⟩

/-- An overlap-piece feature as built in the intersection loop:
`properties = {coop, protected, buffer_km}` plus the piece geometry. -/
structure Feat (G : Type) where
  coop : String
  prot : String
  buffer_km : ℤ
  geometry : G
deriving DecidableEq, Repr

/-- The buffered-footprint feature: `properties = {coop, buffer_km}`. -/
structure BufFeat (G : Type) where
  coop : String
  buffer_km : ℤ
  geometry : G
deriving DecidableEq, Repr

/-- The `"json"` payload of a successful `process_one` result. -/
structure ResultJson (G : Type) where
  overlapFile : String
  bufferFile : String
  overlap_geojson : List (Feat G)
  buffer_geojson : List (BufFeat G)
  coop : String
  prot : String
  buffer_km : ℤ
  overlap_feature_count : ℕ
  overlap_area_km2 : ℚ
deriving DecidableEq, Repr

/-- The buffering step of `process_one` (lines 139-144): an empty source
union gives `GeometryCollection()` without touching the engine; otherwise
reproject to meters, buffer, reproject back — each call may raise and the
exception propagates. -/
def bufferStep (E : Engine G) (coop_union : G) (buffer_m : ℤ) :
    Except String G :=
  if E.is_empty coop_union then .ok E.emptyGC
  else
    match E.to_m coop_union with
    | .error e => .error e
    | .ok coop_m =>
      match E.buffer coop_m buffer_m with
      | .error e => .error e
      | .ok coop_buffer_m => E.to_geo coop_buffer_m

/-- The `for g in pieces` loop of `process_one` (lines 156-169): skip empty
pieces, accumulate the exact planar area of each kept piece and append its
feature record; `transform(to_m, g)` may raise and the exception
propagates. -/
def pieceLoop (E : Engine G) (cn pn : String) (bk : ℤ) :
    List G → List (Feat G) → ℚ → Except String (List (Feat G) × ℚ)
  | [], fs, a => .ok (fs, a)
  | g :: gs, fs, a =>
    if E.is_empty g then pieceLoop E cn pn bk gs fs a
    else
      match E.to_m g with
      | .error e => .error e
      | .ok gm => pieceLoop E cn pn bk gs (fs ++ [⟨cn, pn, bk, g⟩]) (a + E.area gm)

/-- The intersection-and-area step of `process_one` (lines 147-171): empty
buffered source or empty target gives zero features, zero count, zero area;
otherwise intersect (may raise), decompose into parts, and run the piece
loop; the count is the length of the collected feature list and the area is
the accumulated planar m² converted to km² and rounded to 6 decimals. -/
def interStep (E : Engine G) (cn pn : String) (coop_buffer prot_union : G)
    (buffer_m : ℤ) : Except String (List (Feat G) × ℕ × ℚ) :=
  if E.is_empty coop_buffer || E.is_empty prot_union then .ok ([], 0, 0)
  else
    match E.intersection coop_buffer prot_union with
    | .error e => .error e
    | .ok inter =>
      match pieceLoop E cn pn (pyRound ((buffer_m : ℚ) / 1000)) (E.geoms inter) [] 0 with
      | .error e => .error e
      | .ok (fs, a) => .ok (fs, fs.length, pyRound6 (a / 1000000))

/-- Line 132: `coop_name = (coop_name or "coop").replace(".geojson", "")`.
Python's `str.replace` removes every occurrence, not only a suffix. -/
def coop_name_of (j : Item) : String :=
  pyReplace (pyStrOr (pick_pair j).1 "coop") ".geojson" ""

/-- Line 133: `prot_name = (prot_name or "protected").replace(".geojson", "")`. -/
def prot_name_of (j : Item) : String :=
  pyReplace (pyStrOr (pick_pair j).2.2.1 "protected") ".geojson" ""

/-- Line 135: `coop_union = union_from_fc(coop_fc or {...empty...})`. -/
def coop_union_of (E : Engine G) (j : Item) : G :=
  union_from_fc E (some ((pick_pair j).2.1.getD ⟨[]⟩))

/-- Line 136: `prot_union = union_from_fc(prot_fc or {...empty...})`. -/
def prot_union_of (E : Engine G) (j : Item) : G :=
  union_from_fc E (some ((pick_pair j).2.2.2.getD ⟨[]⟩))

/-- `process_one(j, buffer_m)` from `app.py`: resolve the pair, default and
strip the names, dissolve both sides, buffer the source, intersect with the
target, and assemble the result record.  Engine exceptions raised during
buffering or intersection are not caught: they surface as `.error`. -/
def process_one (E : Engine G) (j : Item) (buffer_m : ℤ) :
    Except String (ResultJson G) :=
  match bufferStep E (coop_union_of E j) buffer_m with
  | .error e => .error e
  | .ok coop_buffer =>
    match interStep E (coop_name_of j) (prot_name_of j) coop_buffer
        (prot_union_of E j) buffer_m with
    | .error e => .error e
    | .ok (inter_features, inter_count, inter_area_km2) =>
      .ok
        { overlapFile := coop_name_of j ++ "__x__" ++ prot_name_of j ++
            "__overlap_" ++ toString (pyRound ((buffer_m : ℚ) / 1000)) ++
            "km.geojson"
          bufferFile := coop_name_of j ++ "__buffer_" ++
            toString (pyRound ((buffer_m : ℚ) / 1000)) ++ "km.geojson"
          overlap_geojson := inter_features
          buffer_geojson :=
            if E.is_empty coop_buffer then []
            else [⟨coop_name_of j, pyRound ((buffer_m : ℚ) / 1000), coop_buffer⟩]
          coop := coop_name_of j
          prot := prot_name_of j
          buffer_km := pyRound ((buffer_m : ℚ) / 1000)
          overlap_feature_count := inter_count
          overlap_area_km2 := inter_area_km2 }

/-- The exact accumulated planar area of the non-empty pieces of a list, as
the piece loop computes it, defined with no reference to any buffer-distance
label: used to state that area accumulation is independent of the rounded
`buffer_km` label. -/
def piecesAreaSum (E : Engine G) : List G → Except String ℚ
  | [] => .ok 0
  | g :: gs =>
    if E.is_empty g then piecesAreaSum E gs
    else
      match E.to_m g with
      | .error e => .error e
      | .ok gm =>
        match piecesAreaSum E gs with
        | .error e => .error e
        | .ok s => .ok (E.area gm + s)

/-! ### Batch Runner (`buffer_intersect_batch`) -/

/-- One element of the `items` list.  `jsonKey` models `it.get("json", it)`:
when the `"json"` key is present its value is used, else the item itself. -/
structure BatchItem where
  jsonKey : Option Item := none
  base : Item
deriving DecidableEq, Repr

/-- `it.get("json", it)`. -/
def itemJson (it : BatchItem) : Item :=
  it.jsonKey.getD it.base

/-- The batch payload: an optional `"items"` list (when absent, the payload
itself is the single item), and an optional `"buffer_km"` (default 10). -/
structure Payload where
  items : Option (List BatchItem) := none
  buffer_km : Option ℤ := none
  selfItem : BatchItem
deriving DecidableEq, Repr

/-- `items = payload.get("items"); if items is None: items = [payload]`. -/
def itemsOf (p : Payload) : List BatchItem :=
  p.items.getD [p.selfItem]

/-- One record of the batch output: either `{"json": result}` or on a caught
exception `{"json": {"error": str(e)}}`. -/
inductive OutRec (G : Type) where
  | res (r : ResultJson G)
  | err (msg : String)
deriving DecidableEq, Repr

/-- The `for it in items` loop of `buffer_intersect_batch`: apply
`process_one` to each item, catching any exception and substituting an error
record, appending one output record per item in order. -/
def batchLoop (E : Engine G) (buffer_m : ℤ) :
    List BatchItem → List (OutRec G) → List (OutRec G)
  | [], out => out
  | it :: its, out =>
    match process_one E (itemJson it) buffer_m with
    | .ok r => batchLoop E buffer_m its (out ++ [.res r])
    | .error e => batchLoop E buffer_m its (out ++ [.err e])

/-- `buffer_intersect_batch(payload)` from `app.py`: resolve the item list
and buffer distance (`buffer_km * 1000`), then run the loop.  Total: a
failing item never aborts the batch. -/
def buffer_intersect_batch (E : Engine G) (p : Payload) : List (OutRec G) :=
  batchLoop E ((p.buffer_km.getD 10) * 1000) (itemsOf p) []

/-! ### Concrete coordinate-level model of `_to_2d`

`transform(lambda x, y, z=None: (x, y), g)` applies the lambda to every
vertex of every ring/part of `g`.  For the coordinate-preservation claim we
model a geometry as its (flattened) vertex list, each vertex an X/Y pair
with an optional Z. -/

/-- A vertex: X, Y, and an optional third (elevation) coordinate. -/
structure Vtx where
  x : ℚ
  y : ℚ
  z : Option ℚ
deriving DecidableEq, Repr

/-- A geometry as its vertex sequence (rings/parts flattened). -/
abbrev CGeom := List Vtx

/-- `g.has_z`: shapely reports Z presence from the coordinate dimension. -/
def cHasZ (g : CGeom) : Bool := g.any fun v => v.z.isSome

/-- `_to_2d(g)`: the 2-argument output of the transform lambda drops the
third coordinate of every vertex and keeps X and Y unchanged. -/
def cTo2d (g : CGeom) : CGeom := g.map fun v => ⟨v.x, v.y, none⟩

/-! ### Concrete engine instances (used to evaluate the model on inputs)

A minimal well-behaved engine over `G := ℕ`: geometry `0` is the empty
geometry, every geometry is valid, union is addition, intersection is `min`,
projections are the identity. -/

/-- A concrete engine where every operation succeeds. -/
def toyE : Engine ℕ where
  emptyGC := 0
  is_empty := fun n => n == 0
  is_valid := fun _ => true
  has_z := fun _ => false
  to_2d := id
  make_valid_avail := false
  make_valid := fun g => some g
  buffer0 := fun g => some g
  shape := fun n => if n == 0 then none else some n
  union := fun a b => .ok (a + b)
  unary_union := fun l => .ok (l.foldl (· + ·) 0)
  to_m := fun g => .ok g
  to_geo := fun g => .ok g
  buffer := fun g _ => .ok (g + 1)
  intersection := fun a b => .ok (min a b)
  geoms := fun g => [g]
  area := fun g => (g : ℚ)

/-- `toyE` with a buffering operation that raises an engine exception. -/
def toyEFailBuf : Engine ℕ :=
  { toyE with buffer := fun _ _ => .error "boom" }

/-- `toyE` with a bulk `unary_union` that raises a `GEOSException`. -/
def toyEFailUU : Engine ℕ :=
  { toyE with unary_union := fun _ => .error "uu" }

/-- An input item with one parseable source feature and no target. -/
def item1 : Item := { geojson_1 := some ⟨[1]⟩ }

/-- An input item with one parseable source and one parseable target
feature. -/
def item12 : Item := { geojson_1 := some ⟨[1]⟩, geojson_2 := some ⟨[2]⟩ }

/-- The Pair Resolver example item: slot 2 carries a `coop`-kind label. -/
def itemKind : Item :=
  { kind_1 := some "reserve", name_1 := some "X", geojson_1 := some ⟨[1]⟩
    kind_2 := some "coop_farm", name_2 := some "Y", geojson_2 := some ⟨[2]⟩ }

/-- An item whose source name contains `".geojson"` as a non-suffix
substring. -/
def itemDotName : Item := { name_1 := some "parks.geojson.backup" }

/-- A one-item batch payload around `item1`. -/
def payload1 : Payload := { items := some [{ base := item1 }], selfItem := { base := {} } }

/-! ## Helper lemmas -/

/-- A kind label that starts with `"coop"` is in particular a truthy
(non-empty) string. -/
theorem kindIsCoop_truthy {k : Option String} (h : kindIsCoop k = true) :
    pyTruthyStr k = true := by
  cases k with
  | none => exact absurd h (by decide)
  | some s =>
    cases hd : s.data with
    | nil =>
      have h2 : kindIsCoop (some s) = false := by
        simp only [kindIsCoop, pyStartsWith, pyLower, Option.getD_some, hd]
        decide
      rw [h2] at h
      exact absurd h (by decide)
    | cons c cs => simp [pyTruthyStr, hd]

/-- `process_one` on a successful buffer step and intersection step returns
exactly the assembled record. -/
theorem process_one_ok (E : Engine G) (j : Item) (bm : ℤ) (cb : G)
    (fs : List (Feat G)) (c : ℕ) (a : ℚ)
    (hb : bufferStep E (coop_union_of E j) bm = .ok cb)
    (hi : interStep E (coop_name_of j) (prot_name_of j) cb (prot_union_of E j)
      bm = .ok (fs, c, a)) :
    process_one E j bm = .ok
      { overlapFile := coop_name_of j ++ "__x__" ++ prot_name_of j ++
          "__overlap_" ++ toString (pyRound ((bm : ℚ) / 1000)) ++ "km.geojson"
        bufferFile := coop_name_of j ++ "__buffer_" ++
          toString (pyRound ((bm : ℚ) / 1000)) ++ "km.geojson"
        overlap_geojson := fs
        buffer_geojson :=
          if E.is_empty cb then []
          else [⟨coop_name_of j, pyRound ((bm : ℚ) / 1000), cb⟩]
        coop := coop_name_of j
        prot := prot_name_of j
        buffer_km := pyRound ((bm : ℚ) / 1000)
        overlap_feature_count := c
        overlap_area_km2 := a } := by
  unfold process_one
  simp only [hb, hi]

/-- Inversion: a successful `process_one` run decomposes into a successful
buffer step and intersection step, and determines all result fields. -/
theorem process_one_inv (E : Engine G) (j : Item) (bm : ℤ) (r : ResultJson G)
    (h : process_one E j bm = .ok r) :
    ∃ cb fs c a,
      bufferStep E (coop_union_of E j) bm = .ok cb ∧
      interStep E (coop_name_of j) (prot_name_of j) cb (prot_union_of E j) bm
        = .ok (fs, c, a) ∧
      r.overlap_geojson = fs ∧ r.overlap_feature_count = c ∧
      r.overlap_area_km2 = a ∧ r.buffer_km = pyRound ((bm : ℚ) / 1000) ∧
      r.coop = coop_name_of j ∧ r.prot = prot_name_of j ∧
      r.buffer_geojson = (if E.is_empty cb then []
        else [⟨coop_name_of j, pyRound ((bm : ℚ) / 1000), cb⟩]) := by
  unfold process_one at h
  cases hb : bufferStep E (coop_union_of E j) bm with
  | error e => simp only [hb] at h; exact Except.noConfusion h
  | ok cb =>
    simp only [hb] at h
    cases hi : interStep E (coop_name_of j) (prot_name_of j) cb
        (prot_union_of E j) bm with
    | error e => simp only [hi] at h; exact Except.noConfusion h
    | ok t =>
      obtain ⟨fs, c, a⟩ := t
      simp only [hi, Except.ok.injEq] at h
      subst h
      exact ⟨cb, fs, c, a, rfl, hi, rfl, rfl, rfl, rfl, rfl, rfl, rfl⟩

/-- Inversion for the intersection step: either the empty branch was taken,
or the intersection succeeded and the piece loop determines the outputs. -/
theorem interStep_inv (E : Engine G) (cn pn : String) (cb pu : G) (bm : ℤ)
    (fs : List (Feat G)) (c : ℕ) (a : ℚ)
    (hi : interStep E cn pn cb pu bm = .ok (fs, c, a)) :
    ((E.is_empty cb || E.is_empty pu) = true ∧ fs = [] ∧ c = 0 ∧ a = 0) ∨
    ((E.is_empty cb || E.is_empty pu) = false ∧
      ∃ inter a0, E.intersection cb pu = .ok inter ∧
        pieceLoop E cn pn (pyRound ((bm : ℚ) / 1000)) (E.geoms inter) [] 0
          = .ok (fs, a0) ∧
        c = fs.length ∧ a = pyRound6 (a0 / 1000000)) := by
  unfold interStep at hi
  cases hcond : (E.is_empty cb || E.is_empty pu) with
  | true =>
    rw [hcond] at hi
    simp only [if_true, Except.ok.injEq, Prod.mk.injEq] at hi
    exact Or.inl ⟨rfl, hi.1.symm, hi.2.1.symm, hi.2.2.symm⟩
  | false =>
    rw [hcond] at hi
    simp only [Bool.false_eq_true, if_false] at hi
    cases hx : E.intersection cb pu with
    | error e => simp only [hx] at hi; exact Except.noConfusion hi
    | ok inter =>
      simp only [hx] at hi
      cases hl : pieceLoop E cn pn (pyRound ((bm : ℚ) / 1000))
          (E.geoms inter) [] 0 with
      | error e => simp only [hl] at hi; exact Except.noConfusion hi
      | ok t =>
        obtain ⟨fs0, a0⟩ := t
        simp only [hl, Except.ok.injEq, Prod.mk.injEq] at hi
        obtain ⟨h1, h2, h3⟩ := hi
        subst h1
        exact Or.inr ⟨rfl, inter, a0, rfl, hl, h2.symm, h3.symm⟩

/-- Every feature the piece loop emits satisfies any property that holds of
the emitted record of each non-empty piece. -/
theorem pieceLoop_forall (E : Engine G) (cn pn : String) (bk : ℤ)
    (P : Feat G → Prop) (hP : ∀ g, E.is_empty g = false → P ⟨cn, pn, bk, g⟩) :
    ∀ (gs : List G) (fs : List (Feat G)) (a : ℚ) (fs2 : List (Feat G)) (a2 : ℚ),
      (∀ f ∈ fs, P f) → pieceLoop E cn pn bk gs fs a = .ok (fs2, a2) →
      ∀ f ∈ fs2, P f := by
  intro gs
  induction gs with
  | nil =>
    intro fs a fs2 a2 hfs h
    unfold pieceLoop at h
    simp only [Except.ok.injEq, Prod.mk.injEq] at h
    obtain ⟨h1, _⟩ := h
    subst h1
    exact hfs
  | cons g gs ih =>
    intro fs a fs2 a2 hfs h
    unfold pieceLoop at h
    cases hg : E.is_empty g with
    | true =>
      rw [hg] at h
      simp only [if_true] at h
      exact ih fs a fs2 a2 hfs h
    | false =>
      rw [hg] at h
      simp only [Bool.false_eq_true, if_false] at h
      cases hm : E.to_m g with
      | error e => simp only [hm] at h; exact Except.noConfusion h
      | ok gm =>
        simp only [hm] at h
        refine ih _ _ _ _ ?_ h
        intro f hf
        rcases List.mem_append.mp hf with hf | hf
        · exact hfs f hf
        · rw [List.mem_singleton] at hf
          subst hf
          exact hP g hg

/-- The area the piece loop accumulates over a piece list is the exact sum
of the planar areas of its non-empty pieces. -/
theorem pieceLoop_area (E : Engine G) (cn pn : String) (bk : ℤ) :
    ∀ (gs : List G) (fs : List (Feat G)) (a : ℚ) (fs2 : List (Feat G)) (a2 : ℚ),
      pieceLoop E cn pn bk gs fs a = .ok (fs2, a2) →
      piecesAreaSum E gs = .ok (a2 - a) := by
  intro gs
  induction gs with
  | nil =>
    intro fs a fs2 a2 h
    unfold pieceLoop at h
    simp only [Except.ok.injEq, Prod.mk.injEq] at h
    obtain ⟨_, h2⟩ := h
    subst h2
    simp [piecesAreaSum]
  | cons g gs ih =>
    intro fs a fs2 a2 h
    unfold pieceLoop at h
    cases hg : E.is_empty g with
    | true =>
      rw [hg] at h
      simp only [if_true] at h
      have := ih fs a fs2 a2 h
      simp [piecesAreaSum, hg, this]
    | false =>
      rw [hg] at h
      simp only [Bool.false_eq_true, if_false] at h
      cases hm : E.to_m g with
      | error e => simp only [hm] at h; exact Except.noConfusion h
      | ok gm =>
        simp only [hm] at h
        have hrec := ih _ _ _ _ h
        unfold piecesAreaSum
        rw [hg, hm, hrec]
        simp only [Bool.false_eq_true, if_false, Except.ok.injEq]
        ring

/-- `pyRound` returns a nearest integer: it is within `1/2` of its input. -/
theorem pyRound_nearest (q : ℚ) : |(pyRound q : ℚ) - q| ≤ 1/2 := by
  have h1 : (⌊q⌋ : ℚ) ≤ q := Int.floor_le q
  have h2 : q < ⌊q⌋ + 1 := Int.lt_floor_add_one q
  unfold pyRound
  split_ifs with ha hb hc
  · rw [abs_sub_comm, abs_of_nonneg (by linarith)]
    linarith
  · push_cast
    rw [abs_of_nonneg (by linarith)]
    linarith
  · rw [abs_sub_comm, abs_of_nonneg (by linarith)]
    linarith
  · push_cast
    rw [abs_of_nonneg (by linarith)]
    linarith

/-- The batch loop appends one output record per item, in order. -/
theorem batchLoop_eq (E : Engine G) (bm : ℤ) :
    ∀ (its : List BatchItem) (out : List (OutRec G)),
      batchLoop E bm its out = out ++ its.map fun it =>
        match process_one E (itemJson it) bm with
        | .ok r => OutRec.res r
        | .error e => OutRec.err e := by
  intro its
  induction its with
  | nil => intro out; simp [batchLoop]
  | cons it its ih =>
    intro out
    cases hp : process_one E (itemJson it) bm with
    | ok r => simp [batchLoop, hp, ih]
    | error e => simp [batchLoop, hp, ih]

/-! ## Claim theorems -/

/-- C1: `union_from_fc` (dissolve) is total by construction — it returns a
geometry and never propagates an exception — and whenever zero valid
features survive the parse/repair/non-empty filter (`cleaned = []`, which
covers a `None` collection, features that fail to parse, fail repair, or
are empty after repair), it returns the empty `GeometryCollection()`. -/
theorem dissolve_empty_on_no_valid_features (E : Engine G) (fc : Option FC)
    (h0 : E.is_empty E.emptyGC = true) (hz : cleaned_of E fc = []) :
    union_from_fc E fc = E.emptyGC ∧
      E.is_empty (union_from_fc E fc) = true := by
  have h1 : union_from_fc E fc = E.emptyGC := by
    simp only [union_from_fc, hz]
  exact ⟨h1, h1 ▸ h0⟩

/-- Witness: the concrete engine on a missing (`None`) feature collection. -/
theorem dissolve_empty_on_no_valid_features_witness :
    union_from_fc toyE none = toyE.emptyGC ∧
      toyE.is_empty (union_from_fc toyE none) = true :=
  dissolve_empty_on_no_valid_features toyE none rfl rfl

/-- C3: when the bulk `unary_union` raises a geometry-engine failure on a
non-empty cleaned list, `union_from_fc` falls back to `_safe_union`, which
folds the geometries pairwise left-to-right; a pairwise failure re-repairs
the offending geometry once and retries; a failed re-repair or a second
union failure drops that geometry and the fold continues.  `safe_union`
returns `G` (not `Except`), so the fallback can never propagate a
geometry-engine exception out of the dissolve. -/
theorem dissolve_stepwise_fallback :
    (∀ (E : Engine G) (fc : Option FC) (e : String), cleaned_of E fc ≠ [] →
      E.unary_union (cleaned_of E fc) = .error e →
      union_from_fc E fc = safe_union E (cleaned_of E fc)) ∧
    (∀ (E : Engine G) (g : G) (gs : List G),
      safe_union E (g :: gs) = safe_union_go E g gs) ∧
    (∀ (E : Engine G) (u u2 g : G) (gs : List G), E.union u g = .ok u2 →
      safe_union_go E u (g :: gs) = safe_union_go E u2 gs) ∧
    (∀ (E : Engine G) (u g : G) (gs : List G) (e : String),
      E.union u g = .error e → fix_valid E g = none →
      safe_union_go E u (g :: gs) = safe_union_go E u gs) ∧
    (∀ (E : Engine G) (u g g2 u2 : G) (gs : List G) (e : String),
      E.union u g = .error e → fix_valid E g = some g2 →
      E.union u g2 = .ok u2 →
      safe_union_go E u (g :: gs) = safe_union_go E u2 gs) ∧
    (∀ (E : Engine G) (u g g2 : G) (gs : List G) (e e2 : String),
      E.union u g = .error e → fix_valid E g = some g2 →
      E.union u g2 = .error e2 →
      safe_union_go E u (g :: gs) = safe_union_go E u gs) := by
  refine ⟨?_, ?_, ?_, ?_, ?_, ?_⟩
  · intro E fc e hne huu
    cases hc : cleaned_of E fc with
    | nil => exact absurd hc hne
    | cons g gs =>
      rw [hc] at huu
      simp only [union_from_fc, hc, huu]
  · intro E g gs
    rfl
  · intro E u u2 g gs h
    simp only [safe_union_go, h]
  · intro E u g gs e h1 h2
    simp only [safe_union_go, h1, h2]
  · intro E u g g2 u2 gs e h1 h2 h3
    simp only [safe_union_go, h1, h2, h3]
  · intro E u g g2 gs e e2 h1 h2 h3
    simp only [safe_union_go, h1, h2, h3]

/-- Witness: a concrete engine whose bulk union fails takes the stepwise
fallback. -/
theorem dissolve_stepwise_fallback_witness :
    union_from_fc toyEFailUU (some ⟨[1, 2]⟩) =
      safe_union toyEFailUU (cleaned_of toyEFailUU (some ⟨[1, 2]⟩)) :=
  (dissolve_stepwise_fallback (G := ℕ)).1 toyEFailUU (some ⟨[1, 2]⟩) "uu"
    (by decide) rfl

/-- C4: for a record in the numbered-keys shape, the Pair Resolver uses the
positional default (slot 1 source, slot 2 target) when neither slot carries
a truthy kind label; and a slot whose kind label starts with a
case-insensitive `"coop"` is returned as the source with the other slot as
target, regardless of position. -/
theorem pick_pair_numbered_shape (j : Item)
    (hnum : (j.coopKey.isSome && j.protKey.isSome) = false) :
    ((pyTruthyStr j.kind_1 = false ∧ pyTruthyStr j.kind_2 = false) →
      pick_pair j = (j.name_1, j.geojson_1, j.name_2, j.geojson_2)) ∧
    (kindIsCoop j.kind_1 = true →
      pick_pair j = (j.name_1, j.geojson_1, j.name_2, j.geojson_2)) ∧
    (kindIsCoop j.kind_1 = false → kindIsCoop j.kind_2 = true →
      pick_pair j = (j.name_2, j.geojson_2, j.name_1, j.geojson_1)) := by
  refine ⟨?_, ?_, ?_⟩
  · rintro ⟨h1, h2⟩
    simp [pick_pair, hnum, h1, h2]
  · intro hc
    have ht := kindIsCoop_truthy hc
    simp [pick_pair, hnum, ht, hc]
  · intro hn1 hc2
    have ht2 := kindIsCoop_truthy hc2
    simp [pick_pair, hnum, ht2, hn1]

/-- Witness: the design's example — slot 2 labelled `kind_2 = "coop_farm"`
resolves as the source even though it is in the target position. -/
theorem pick_pair_numbered_shape_witness :
    pick_pair itemKind = (some "Y", some ⟨[2]⟩, some "X", some ⟨[1]⟩) :=
  (pick_pair_numbered_shape itemKind rfl).2.2 (by decide) (by decide)

/-- C9: projecting a geometry that carries a third (elevation) coordinate
down to 2D drops that coordinate from every vertex while preserving every
vertex's X and Y exactly (and keeps the vertex count). -/
theorem to_2d_drops_z_preserves_xy (g : CGeom) (h : cHasZ g = true) :
    (cTo2d g).map (fun v => (v.x, v.y)) = g.map (fun v => (v.x, v.y)) ∧
    cHasZ (cTo2d g) = false ∧ (cTo2d g).length = g.length := by
  refine ⟨?_, ?_, ?_⟩
  · simp [cTo2d, List.map_map, Function.comp]
  · simp [cHasZ, cTo2d]
  · simp [cTo2d]

/-- C2: if the source dissolve result is empty, `process_one` succeeds with
zero overlap pieces, zero overlap area and an empty overlap collection
regardless of the target; and if the target dissolve result is empty (with
the buffering step succeeding, as it always does for an empty source),
likewise regardless of the buffered source. -/
theorem process_one_empty_dissolve_zero (E : Engine G) (j : Item) (bm : ℤ)
    (h0 : E.is_empty E.emptyGC = true) :
    (E.is_empty (coop_union_of E j) = true →
      ∃ r, process_one E j bm = .ok r ∧ r.overlap_feature_count = 0 ∧
        r.overlap_area_km2 = 0 ∧ r.overlap_geojson = []) ∧
    (∀ cb, bufferStep E (coop_union_of E j) bm = .ok cb →
      E.is_empty (prot_union_of E j) = true →
      ∃ r, process_one E j bm = .ok r ∧ r.overlap_feature_count = 0 ∧
        r.overlap_area_km2 = 0 ∧ r.overlap_geojson = []) := by
  constructor
  · intro hcu
    have hb : bufferStep E (coop_union_of E j) bm = .ok E.emptyGC := by
      simp [bufferStep, hcu]
    have hi : interStep E (coop_name_of j) (prot_name_of j) E.emptyGC
        (prot_union_of E j) bm = .ok ([], 0, 0) := by
      simp [interStep, h0]
    exact ⟨_, process_one_ok E j bm E.emptyGC [] 0 0 hb hi, rfl, rfl, rfl⟩
  · intro cb hb hpu
    have hi : interStep E (coop_name_of j) (prot_name_of j) cb
        (prot_union_of E j) bm = .ok ([], 0, 0) := by
      simp [interStep, hpu]
    exact ⟨_, process_one_ok E j bm cb [] 0 0 hb hi, rfl, rfl, rfl⟩

/-- Witness: the concrete engine on an item with no features at all. -/
theorem process_one_empty_dissolve_zero_witness :
    ∃ r, process_one toyE {} 10000 = Except.ok r ∧
      r.overlap_feature_count = 0 ∧ r.overlap_area_km2 = 0 ∧
      r.overlap_geojson = [] :=
  (process_one_empty_dissolve_zero toyE {} 10000 rfl).1 rfl

/-- C5: a geometry-engine failure raised during buffering (reproject,
buffer, reproject back) or during the intersection is not caught inside
`process_one`: it propagates out as the error of the whole pair
computation. -/
theorem process_one_engine_failure_propagates :
    (∀ (E : Engine G) (j : Item) (bm : ℤ) (e : String),
      bufferStep E (coop_union_of E j) bm = .error e →
      process_one E j bm = .error e) ∧
    (∀ (E : Engine G) (j : Item) (bm : ℤ) (cb : G) (e : String),
      bufferStep E (coop_union_of E j) bm = .ok cb →
      interStep E (coop_name_of j) (prot_name_of j) cb (prot_union_of E j) bm
        = .error e →
      process_one E j bm = .error e) ∧
    (∀ (E : Engine G) (cu : G) (bm : ℤ) (e : String),
      E.is_empty cu = false → E.to_m cu = .error e →
      bufferStep E cu bm = .error e) ∧
    (∀ (E : Engine G) (cu cm : G) (bm : ℤ) (e : String),
      E.is_empty cu = false → E.to_m cu = .ok cm →
      E.buffer cm bm = .error e → bufferStep E cu bm = .error e) ∧
    (∀ (E : Engine G) (cu cm cbm : G) (bm : ℤ) (e : String),
      E.is_empty cu = false → E.to_m cu = .ok cm → E.buffer cm bm = .ok cbm →
      E.to_geo cbm = .error e → bufferStep E cu bm = .error e) ∧
    (∀ (E : Engine G) (cn pn : String) (cb pu : G) (bm : ℤ) (e : String),
      (E.is_empty cb || E.is_empty pu) = false →
      E.intersection cb pu = .error e →
      interStep E cn pn cb pu bm = .error e) := by
  refine ⟨?_, ?_, ?_, ?_, ?_, ?_⟩
  · intro E j bm e hb
    simp only [process_one, hb]
  · intro E j bm cb e hb hi
    simp only [process_one, hb, hi]
  · intro E cu bm e h1 h2
    simp only [bufferStep, h1, Bool.false_eq_true, if_false, h2]
  · intro E cu cm bm e h1 h2 h3
    simp only [bufferStep, h1, Bool.false_eq_true, if_false, h2, h3]
  · intro E cu cm cbm bm e h1 h2 h3 h4
    simp only [bufferStep, h1, Bool.false_eq_true, if_false, h2, h3, h4]
  · intro E cn pn cb pu bm e hcond hx
    simp only [interStep, hcond, Bool.false_eq_true, if_false, hx]

/-- Witness: a concrete engine whose buffer raises sees the error surface
unchanged out of `process_one`. -/
theorem process_one_engine_failure_propagates_witness :
    process_one toyEFailBuf item1 10000 = Except.error "boom" :=
  (process_one_engine_failure_propagates (G := ℕ)).1 toyEFailBuf item1 10000
    "boom" rfl

/-- C10: on every successful run, `overlap_feature_count` equals the number
of features in the returned overlap collection, and every feature in the
collection carries a non-empty piece (empty pieces are excluded from both
the count and the collection). -/
theorem overlap_count_matches_features (E : Engine G) (j : Item) (bm : ℤ)
    (r : ResultJson G) (h : process_one E j bm = .ok r) :
    r.overlap_feature_count = r.overlap_geojson.length ∧
    ∀ f ∈ r.overlap_geojson, E.is_empty f.geometry = false := by
  obtain ⟨cb, fs, c, a, hb, hi, hfs, hc, ha, _, _, _, _⟩ :=
    process_one_inv E j bm r h
  rcases interStep_inv E _ _ cb (prot_union_of E j) bm fs c a hi with
    ⟨_, hfs0, hc0, _⟩ | ⟨hcond, inter, a0, hx, hl, hc0, _⟩
  · refine ⟨?_, ?_⟩
    · rw [hc, hc0, hfs, hfs0]
      rfl
    · intro f hf
      rw [hfs, hfs0] at hf
      exact absurd hf (List.not_mem_nil f)
  · refine ⟨?_, ?_⟩
    · rw [hc, hc0, hfs]
    · intro f hf
      rw [hfs] at hf
      exact pieceLoop_forall E _ _ _ (fun f => E.is_empty f.geometry = false)
        (fun g hg => hg) _ [] 0 fs a0 (by simp) hl f hf

/-- Witness: a concrete run with one overlap piece. -/
theorem overlap_count_matches_features_witness :
    ∃ r, process_one toyE item12 10000 = Except.ok r ∧
      r.overlap_feature_count = r.overlap_geojson.length := by
  obtain ⟨r, hr⟩ : ∃ r, process_one toyE item12 10000 = Except.ok r := ⟨_, rfl⟩
  exact ⟨r, hr, (overlap_count_matches_features toyE item12 10000 r hr).1⟩

/-- C6: the batch runner emits exactly one output record per item, in input
order; when `process_one` raises for an item it substitutes the
`{"json": {"error": message}}` record for that item and continues, so a
batch call never fails wholesale because of one bad pair. -/
theorem batch_isolates_item_failures (E : Engine G) (p : Payload) :
    buffer_intersect_batch E p = (itemsOf p).map (fun it =>
      match process_one E (itemJson it) ((p.buffer_km.getD 10) * 1000) with
      | .ok r => OutRec.res r
      | .error e => OutRec.err e) ∧
    (buffer_intersect_batch E p).length = (itemsOf p).length ∧
    (∀ (i : ℕ) (it : BatchItem) (e : String), (itemsOf p).get? i = some it →
      process_one E (itemJson it) ((p.buffer_km.getD 10) * 1000) = .error e →
      (buffer_intersect_batch E p).get? i = some (OutRec.err e)) := by
  have hmap : buffer_intersect_batch E p = (itemsOf p).map (fun it =>
      match process_one E (itemJson it) ((p.buffer_km.getD 10) * 1000) with
      | .ok r => OutRec.res r
      | .error e => OutRec.err e) := by
    unfold buffer_intersect_batch
    rw [batchLoop_eq]
    simp
  refine ⟨hmap, ?_, ?_⟩
  · rw [hmap, List.length_map]
  · intro i it e hget hp
    rw [hmap, List.get?_map, hget]
    simp [hp]

/-- Witness: a one-item batch over a failing engine substitutes the error
record. -/
theorem batch_isolates_item_failures_witness :
    (buffer_intersect_batch toyEFailBuf payload1).get? 0 =
      some (OutRec.err "boom") :=
  (batch_isolates_item_failures toyEFailBuf payload1).2.2 0 { base := item1 }
    "boom" rfl rfl

/-- Counterexample to C7: the supplied name `"parks.geojson.backup"`
contains `".geojson"` only as a non-suffix substring, so by the claim it
should be returned unchanged; the code's `str.replace` removes the
occurrence and returns `"parks.backup"`. -/
theorem name_replace_nonsuffix_counterexample :
    ∃ r, process_one toyE itemDotName 10000 = Except.ok r ∧
      r.coop = "parks.backup" ∧ r.coop ≠ "parks.geojson.backup" := by
  obtain ⟨r, hr⟩ : ∃ r, process_one toyE itemDotName 10000 = Except.ok r :=
    ⟨_, rfl⟩
  obtain ⟨_, _, _, _, _, _, _, _, _, _, hcoop, _, _⟩ :=
    process_one_inv toyE itemDotName 10000 r hr
  have h1 : r.coop = "parks.backup" := by
    rw [hcoop]
    decide
  exact ⟨r, hr, h1, by rw [h1]; decide⟩

/-- C7 (amended): each dataset name defaults to `"coop"` / `"protected"`
when absent or empty, and the returned name equals the supplied name with
every occurrence of `".geojson"` removed (Python `str.replace` semantics),
not only a suffix occurrence. -/
theorem process_one_names (E : Engine G) (j : Item) (bm : ℤ)
    (r : ResultJson G) (h : process_one E j bm = .ok r) :
    r.coop = pyReplace (pyStrOr (pick_pair j).1 "coop") ".geojson" "" ∧
    r.prot =
      pyReplace (pyStrOr (pick_pair j).2.2.1 "protected") ".geojson" "" := by
  obtain ⟨_, _, _, _, _, _, _, _, _, _, hcoop, hprot, _⟩ :=
    process_one_inv E j bm r h
  exact ⟨hcoop, hprot⟩

/-- Witness: with both names absent the defaults are used. -/
theorem process_one_names_witness :
    ∃ r, process_one toyE item12 10000 = Except.ok r ∧
      r.coop = "coop" ∧ r.prot = "protected" := by
  obtain ⟨r, hr⟩ : ∃ r, process_one toyE item12 10000 = Except.ok r := ⟨_, rfl⟩
  have h := process_one_names toyE item12 10000 r hr
  exact ⟨r, hr, by rw [h.1]; decide, by rw [h.2]; decide⟩

/-- C8: the `buffer_km` value written into the top-level result, every
overlap-piece record and the buffer feature equals `round(buffer_m/1000)`
(Python round-half-to-even), which is a nearest whole kilometre to
`buffer_m/1000`; and the accumulated area is the exact sum of the planar
areas of the non-empty pieces — computed with no reference to the rounded
label — converted to km² and rounded to 6 decimals. -/
theorem buffer_km_label_and_exact_area :
    (∀ (E : Engine G) (j : Item) (bm : ℤ) (r : ResultJson G),
      process_one E j bm = .ok r →
      r.buffer_km = pyRound ((bm : ℚ) / 1000) ∧
      (∀ f ∈ r.overlap_geojson, f.buffer_km = pyRound ((bm : ℚ) / 1000)) ∧
      (∀ f ∈ r.buffer_geojson, f.buffer_km = pyRound ((bm : ℚ) / 1000))) ∧
    (∀ bm : ℤ, 0 < bm →
      |(pyRound ((bm : ℚ) / 1000) : ℚ) - (bm : ℚ) / 1000| ≤ 1 / 2) ∧
    (∀ (E : Engine G) (cn pn : String) (cb pu : G) (bm : ℤ)
      (fs : List (Feat G)) (c : ℕ) (ar : ℚ),
      interStep E cn pn cb pu bm = .ok (fs, c, ar) →
      (E.is_empty cb || E.is_empty pu) = false →
      ∃ inter S, E.intersection cb pu = .ok inter ∧
        piecesAreaSum E (E.geoms inter) = .ok S ∧
        ar = pyRound6 (S / 1000000)) := by
  refine ⟨?_, ?_, ?_⟩
  · intro E j bm r h
    obtain ⟨cb, fs, c, a, hb, hi, hfs, _, _, hbk, _, _, hbg⟩ :=
      process_one_inv E j bm r h
    refine ⟨hbk, ?_, ?_⟩
    · intro f hf
      rw [hfs] at hf
      rcases interStep_inv E _ _ cb (prot_union_of E j) bm fs c a hi with
        ⟨_, hfs0, _, _⟩ | ⟨_, inter, a0, _, hl, _, _⟩
      · rw [hfs0] at hf
        exact absurd hf (List.not_mem_nil f)
      · exact pieceLoop_forall E _ _ _
          (fun f => f.buffer_km = pyRound ((bm : ℚ) / 1000))
          (fun g _ => rfl) _ [] 0 fs a0 (by simp) hl f hf
    · intro f hf
      rw [hbg] at hf
      by_cases hcb : E.is_empty cb = true
      · rw [if_pos hcb] at hf
        exact absurd hf (List.not_mem_nil f)
      · rw [if_neg hcb] at hf
        rw [List.mem_singleton] at hf
        subst hf
        rfl
  · intro bm _
    exact pyRound_nearest _
  · intro E cn pn cb pu bm fs c ar hi hcond
    rcases interStep_inv E cn pn cb pu bm fs c ar hi with
      ⟨hcond2, _, _, _⟩ | ⟨_, inter, a0, hx, hl, _, har⟩
    · rw [hcond] at hcond2
      exact Bool.noConfusion hcond2
    · refine ⟨inter, a0, hx, ?_, har⟩
      have h := pieceLoop_area E cn pn (pyRound ((bm : ℚ) / 1000))
        (E.geoms inter) [] 0 fs a0 hl
      simpa using h

/-- Witness: the nearest-kilometre bound at the concrete distance 2500 m
(where Python's banker's rounding gives 2 km). -/
theorem buffer_km_label_and_exact_area_witness :
    |(pyRound (((2500 : ℤ) : ℚ) / 1000) : ℚ) - ((2500 : ℤ) : ℚ) / 1000|
      ≤ 1 / 2 :=
  (buffer_km_label_and_exact_area (G := ℕ)).2.1 2500 (by decide)

/-- Witness: a concrete one-vertex 3D geometry. -/
theorem to_2d_drops_z_preserves_xy_witness :
    cHasZ [⟨1, 2, some 5⟩] = true ∧
      ((cTo2d [⟨1, 2, some 5⟩]).map (fun v => (v.x, v.y)) =
          [(⟨1, 2, some 5⟩ : Vtx)].map (fun v => (v.x, v.y)) ∧
        cHasZ (cTo2d [⟨1, 2, some 5⟩]) = false ∧
        (cTo2d [⟨1, 2, some 5⟩]).length = [(⟨1, 2, some 5⟩ : Vtx)].length) :=
  ⟨by decide, to_2d_drops_z_preserves_xy [⟨1, 2, some 5⟩] (by decide)⟩

end App
